import Mathlib

/-!
Shallow embedding of the OAuth token lifecycle manager of the im-backend
repository: the credential store in `src/lib/tokenStore.js`, the refresh and
lifecycle logic in `src/lib/qbo.js` (`refreshAccessToken`, `getValidTokens`,
`scheduleTokenRefresh`, `stopScheduledRefresh`), and the timer-replacement
discipline of the `/callback` route in the auth router.

Modelling conventions, made explicit because the source is JavaScript:

* `Date.now()` is modelled as an `Int` (epoch milliseconds) passed explicitly
  wherever the source reads the clock; `new Date().toISOString()` is a
  `String` parameter.
* JavaScript truthiness on strings (null / undefined / empty string are
  falsy) is `truthyStr`; truthiness on numbers (null / undefined / 0 are
  falsy) is `truthyInt`; truthiness on interval ids is `truthyNat`.
* The module-level mutable `tokenData` object together with the JSON file on
  disk form a `StoreState`; every mutating function returns the new state.
* The `axios` call to the remote token endpoint is modelled by an
  `IssuerResult` argument describing how the endpoint responds, and each
  outcome carries a count of issuer calls made.
* Thrown `Error` values are modelled by inductive error types whose
  constructors correspond one-to-one to the distinct error messages thrown by
  the source.
-/

namespace ImBackend

/-- JavaScript truthiness of an optional string: null, undefined and the
empty string are falsy. -/
def truthyStr : Option String → Bool
  | none => false
  | some s => s != ""

/-- JavaScript truthiness of an optional integer: null, undefined and 0 are
falsy. -/
def truthyInt : Option Int → Bool
  | none => false
  | some n => n != 0

/-- JavaScript truthiness of an optional interval id: null, undefined and 0
are falsy. -/
def truthyNat : Option Nat → Bool
  | none => false
  | some n => n != 0

/-- The `tokenData` record of `src/lib/tokenStore.js` (lines 15 to 23): the
single process-wide Credential. `expires_at` is an absolute epoch-millisecond
instant. -/
structure TokenData where
  access_token : Option String
  refresh_token : Option String
  realm_id : Option String
  expires_at : Option Int
  token_type : Option String
  scope : Option String
  last_updated : Option String
deriving Repr, DecidableEq

/-- The all-null initial `tokenData` value of `src/lib/tokenStore.js`. -/
def emptyTokenData : TokenData :=
  { access_token := none
    refresh_token := none
    realm_id := none
    expires_at := none
    token_type := none
    scope := none
    last_updated := none }

/-- Shape of a token response from the issuer, as consumed by `saveTokens`
and `updateTokens` (`expires_in` is a lifetime in seconds). -/
structure TokenResponse where
  access_token : Option String
  refresh_token : Option String
  expires_in : Option Int
  token_type : Option String
  scope : Option String
deriving Repr, DecidableEq

/-- Combined mutable state of `src/lib/tokenStore.js`: the in-memory
`tokenData` record and the JSON file at `TOKEN_FILE_PATH` (modelled as the
parsed record it holds, `none` when the file does not exist). -/
structure StoreState where
  tokenData : TokenData
  file : Option TokenData
deriving Repr, DecidableEq

/-- The store state with no tokens in memory and no token file on disk:
the cold-start state when no token file exists. -/
def emptyStoreState : StoreState :=
  { tokenData := emptyTokenData, file := none }

/-- `saveTokens(tokens, realmId)` of `src/lib/tokenStore.js` (lines 37 to
66): computes `expires_at = Date.now() + expires_in * 1000` when
`expires_in` is truthy (null otherwise), replaces the whole in-memory record
and writes it to the file, returning the saved record. -/
def saveTokens (st : StoreState) (tokens : TokenResponse) (realmId : Option String)
    (now : Int) (nowIso : String) : TokenData × StoreState :=
  let expiresAt : Option Int :=
    if truthyInt tokens.expires_in then some (now + tokens.expires_in.getD 0 * 1000)
    else none
  let td : TokenData :=
    { access_token := tokens.access_token
      refresh_token := tokens.refresh_token
      realm_id := realmId
      expires_at := expiresAt
      token_type := tokens.token_type
      scope := tokens.scope
      last_updated := some nowIso }
  -- the prior state is discarded wholesale, matching the source assignment
  have _ := st
  (td, { tokenData := td, file := some td })

/-- `loadTokens()` of `src/lib/tokenStore.js` (lines 69 to 102): returns
null when the file is missing or its record lacks a truthy `access_token` or
`realm_id`; otherwise installs the loaded record in memory and returns it. -/
def loadTokens (st : StoreState) : Option TokenData × StoreState :=
  match st.file with
  | none => (none, st)
  | some loadedTokens =>
    if !truthyStr loadedTokens.access_token || !truthyStr loadedTokens.realm_id then
      (none, st)
    else
      (some loadedTokens, { st with tokenData := loadedTokens })

/-- `getTokens()` of `src/lib/tokenStore.js` (lines 105 to 107). -/
def getTokens (st : StoreState) : TokenData :=
  st.tokenData

/-- `hasValidTokens()` of `src/lib/tokenStore.js` (lines 110 to 122): false
when `access_token` or `realm_id` is falsy, false when `expires_at` is truthy
and `Date.now() > expires_at - 300000`, true otherwise. -/
def hasValidTokens (td : TokenData) (now : Int) : Bool :=
  if !truthyStr td.access_token || !truthyStr td.realm_id then
    false
  else if truthyInt td.expires_at && decide (now > td.expires_at.getD 0 - 300000) then
    false
  else
    true

/-- `isTokenExpired()` of `src/lib/tokenStore.js` (lines 125 to 132): false
when `expires_at` is falsy, otherwise `Date.now() > expires_at - 300000`. -/
def isTokenExpired (td : TokenData) (now : Int) : Bool :=
  if !truthyInt td.expires_at then
    false
  else
    decide (now > td.expires_at.getD 0 - 300000)

/-- `updateTokens(newTokens)` of `src/lib/tokenStore.js` (lines 135 to 164):
spreads the current record, always overwrites `access_token` and
`last_updated`, overwrites `expires_at` only when `expires_in` is truthy
(keeping the old value otherwise), overwrites `refresh_token` only when the
new value is truthy, then persists the merged record. -/
def updateTokens (st : StoreState) (newTokens : TokenResponse)
    (now : Int) (nowIso : String) : TokenData × StoreState :=
  let updatedTokens : TokenData :=
    { st.tokenData with
      access_token := newTokens.access_token
      expires_at :=
        if truthyInt newTokens.expires_in then
          some (now + newTokens.expires_in.getD 0 * 1000)
        else st.tokenData.expires_at
      last_updated := some nowIso }
  let updatedTokens :=
    if truthyStr newTokens.refresh_token then
      { updatedTokens with refresh_token := newTokens.refresh_token }
    else updatedTokens
  (updatedTokens, { tokenData := updatedTokens, file := some updatedTokens })

/-- `clearTokens()` of `src/lib/tokenStore.js` (lines 167 to 194): resets the
in-memory record to all-null and removes the token file. -/
def clearTokens (st : StoreState) : Bool × StoreState :=
  have _ := st
  (true, { tokenData := emptyTokenData, file := none })

/-- The diagnostic snapshot returned by `getTokenInfo()` of
`src/lib/tokenStore.js` (lines 197 to 209). -/
structure TokenInfo where
  hasTokens : Bool
  hasRefreshToken : Bool
  realmId : Option String
  expiresAt : Option Int
  isExpired : Bool
  isValid : Bool
  lastUpdated : Option String
  tokenType : Option String
  scope : Option String
deriving Repr, DecidableEq

/-- `getTokenInfo()` of `src/lib/tokenStore.js` (lines 197 to 209):
`hasTokens` is the double-negation truthiness of `access_token`. -/
def getTokenInfo (td : TokenData) (now : Int) : TokenInfo :=
  { hasTokens := truthyStr td.access_token
    hasRefreshToken := truthyStr td.refresh_token
    realmId := td.realm_id
    expiresAt := td.expires_at
    isExpired := isTokenExpired td now
    isValid := hasValidTokens td now
    lastUpdated := td.last_updated
    tokenType := td.token_type
    scope := td.scope }

/-- Behaviour of the remote token endpoint for one refresh request: a 2xx
response carrying a token payload, a non-2xx HTTP response with a status
code (`error.response` present in the axios error), or a transport-level
failure such as a timeout (`error.response` absent). -/
inductive IssuerResult where
  | success (resp : TokenResponse)
  | httpError (status : Nat)
  | networkError
deriving Repr, DecidableEq

/-- The underlying cause wrapped by the generic `Token refresh failed`
rethrow at the end of the catch block of `refreshAccessToken`. -/
inductive RefreshFailureCause where
  | noRefreshToken
  | noAccessTokenInResponse
  | httpStatus (status : Nat)
  | network
deriving Repr, DecidableEq

/-- The distinct errors thrown by `refreshAccessToken` of `src/lib/qbo.js`
(lines 37 to 92): `invalidRefreshToken` is the message thrown on HTTP 400,
`unauthorizedClient` the one on HTTP 401, and `refreshFailed` the generic
`Token refresh failed` wrapper thrown in every other catch path (which also
swallows the two errors thrown inside the try block). -/
inductive RefreshError where
  | invalidRefreshToken
  | unauthorizedClient
  | refreshFailed (cause : RefreshFailureCause)
deriving Repr, DecidableEq

/-- Outcome of `refreshAccessToken`: the returned response or thrown error,
the store state afterwards, and how many issuer requests were made. -/
structure RefreshOutcome where
  result : Except RefreshError TokenResponse
  state : StoreState
  issuerCalls : Nat

/-- `refreshAccessToken()` of `src/lib/qbo.js` (lines 37 to 92): fails
without any network call when no truthy `refresh_token` is stored; otherwise
performs one issuer request. On a 2xx response it requires a truthy
`access_token`, merges via `updateTokens`, and returns the raw response. On
an HTTP error it throws the 400 or 401 specific error, or the generic
wrapper; on a transport failure it throws the generic wrapper. The store is
only written through `updateTokens` on the success path. -/
def refreshAccessToken (st : StoreState) (issuer : IssuerResult)
    (now : Int) (nowIso : String) : RefreshOutcome :=
  if !truthyStr st.tokenData.refresh_token then
    { result := .error (.refreshFailed .noRefreshToken), state := st, issuerCalls := 0 }
  else
    match issuer with
    | .success resp =>
      if !truthyStr resp.access_token then
        { result := .error (.refreshFailed .noAccessTokenInResponse)
          state := st, issuerCalls := 1 }
      else
        { result := .ok resp
          state := (updateTokens st resp now nowIso).2, issuerCalls := 1 }
    | .httpError status =>
      if status == 400 then
        { result := .error .invalidRefreshToken, state := st, issuerCalls := 1 }
      else if status == 401 then
        { result := .error .unauthorizedClient, state := st, issuerCalls := 1 }
      else
        { result := .error (.refreshFailed (.httpStatus status))
          state := st, issuerCalls := 1 }
    | .networkError =>
      { result := .error (.refreshFailed .network), state := st, issuerCalls := 1 }

/-- The distinct errors thrown by `getValidTokens` of `src/lib/qbo.js`
(lines 95 to 121): a rethrown refresh error, the `Token expired and no
refresh token available` message, or the `No tokens available -
authentication required` message. -/
inductive GetValidTokensError where
  | refreshErr (e : RefreshError)
  | tokenExpiredNoRefreshToken
  | noTokensAvailable
deriving Repr, DecidableEq

/-- Outcome of `getValidTokens`: the returned credential or thrown error,
the store state afterwards, and how many issuer requests were made. -/
structure GetValidTokensOutcome where
  result : Except GetValidTokensError TokenData
  state : StoreState
  issuerCalls : Nat

/-- `getValidTokens()` of `src/lib/qbo.js` (lines 95 to 121): returns the
stored credential when `hasValidTokens`, otherwise attempts a refresh when
`isTokenExpired` and a truthy `refresh_token` exists (returning the merged
stored record on success and rethrowing the refresh error on failure),
throws the expired-without-refresh error when expired with no refresh token,
and throws the no-tokens error otherwise. -/
def getValidTokens (st : StoreState) (issuer : IssuerResult)
    (now : Int) (nowIso : String) : GetValidTokensOutcome :=
  if hasValidTokens st.tokenData now then
    { result := .ok (getTokens st), state := st, issuerCalls := 0 }
  else if isTokenExpired st.tokenData now then
    if truthyStr (getTokens st).refresh_token then
      let o := refreshAccessToken st issuer now nowIso
      match o.result with
      | .ok _ =>
        { result := .ok (getTokens o.state), state := o.state, issuerCalls := o.issuerCalls }
      | .error e =>
        { result := .error (.refreshErr e), state := o.state, issuerCalls := o.issuerCalls }
    else
      { result := .error .tokenExpiredNoRefreshToken, state := st, issuerCalls := 0 }
  else
    { result := .error .noTokensAvailable, state := st, issuerCalls := 0 }

/-- Modelled from the spec error taxonomy: the errors the spec classifies as
`ReauthenticationRequired` are the terminal issuer rejections (HTTP 400
invalid refresh token and HTTP 401 unauthorized client credentials) and the
two no-usable-credential errors of `getValidTokens`. -/
def isReauthenticationRequired : GetValidTokensError → Bool
  | .refreshErr .invalidRefreshToken => true
  | .refreshErr .unauthorizedClient => true
  | .tokenExpiredNoRefreshToken => true
  | .noTokensAvailable => true
  | .refreshErr (.refreshFailed _) => false

/-- Modelled from the spec error taxonomy: the errors the spec classifies as
`TemporarilyUnavailable` are the generic `Token refresh failed` wrappers
(transport failures and non-terminal HTTP statuses). -/
def isTemporarilyUnavailable : GetValidTokensError → Bool
  | .refreshErr (.refreshFailed _) => true
  | _ => false

/-- Modelled from the spec: an issuer outcome is a recoverable refresh
failure when it is a transport-level failure or an HTTP error other than the
terminal 400 and 401 statuses. -/
def recoverableIssuer : IssuerResult → Bool
  | .networkError => true
  | .httpError status => !(status == 400) && !(status == 401)
  | .success _ => false

/-- State of the process timer table: the next interval id `setInterval`
would hand out and the list of ids of currently active intervals. -/
structure TimerState where
  nextId : Nat
  active : List Nat
deriving Repr, DecidableEq

/-- `scheduleTokenRefresh(intervalMinutes)` of `src/lib/qbo.js` (lines 182
to 197): unconditionally creates a new interval via `setInterval` and
returns its id; it never cancels an existing interval. -/
def scheduleTokenRefresh (ts : TimerState) (intervalMinutes : Nat) : Nat × TimerState :=
  have _ := intervalMinutes
  (ts.nextId, { nextId := ts.nextId + 1, active := ts.nextId :: ts.active })

/-- `stopScheduledRefresh(intervalId)` of `src/lib/qbo.js` (lines 200 to
205): calls `clearInterval` when the id is truthy. -/
def stopScheduledRefresh (intervalId : Option Nat) (ts : TimerState) : TimerState :=
  if truthyNat intervalId then
    { ts with active := ts.active.erase (intervalId.getD 0) }
  else
    ts

/-- The scheduling step of the `/callback` route in the auth router: when the
module-level `refreshIntervalId` is truthy it first stops that interval,
then starts a new 30-minute one, whose id becomes the new tracked id. -/
def callbackScheduleRefresh (refreshIntervalId : Option Nat) (ts : TimerState) :
    Nat × TimerState :=
  let ts1 :=
    if truthyNat refreshIntervalId then stopScheduledRefresh refreshIntervalId ts
    else ts
  scheduleTokenRefresh ts1 30

/-! ### Helper lemmas shared by several claims -/

/-- An expired check that passed pins down a truthy `expires_at` and the
clock comparison. -/
lemma expired_elim (td : TokenData) (now : Int) (h : isTokenExpired td now = true) :
    truthyInt td.expires_at = true ∧ now > td.expires_at.getD 0 - 300000 := by
  unfold isTokenExpired at h
  by_cases hti : truthyInt td.expires_at = true
  · rw [hti] at h
    simp at h
    exact ⟨hti, h⟩
  · simp [Bool.eq_false_iff.2 hti] at h

/-- A credential that `isTokenExpired` judges expired is never judged valid
by `hasValidTokens` at the same instant. -/
lemma hasValidTokens_false_of_expired (td : TokenData) (now : Int)
    (h : isTokenExpired td now = true) : hasValidTokens td now = false := by
  obtain ⟨hti, hgt⟩ := expired_elim td now h
  unfold hasValidTokens
  rw [hti]
  simp only [Bool.true_and]
  rw [decide_eq_true hgt]
  split <;> rfl

/-- Expiry is monotone in the clock: once expired, expired at every later
instant. -/
lemma isTokenExpired_mono (td : TokenData) {now now' : Int}
    (h : isTokenExpired td now = true) (hle : now ≤ now') :
    isTokenExpired td now' = true := by
  obtain ⟨hti, hgt⟩ := expired_elim td now h
  unfold isTokenExpired
  rw [hti]
  simp only [Bool.not_true, Bool.false_eq_true, if_false]
  exact decide_eq_true (by omega)

/-! ### Claim C2 -/

/-- Modelled from the claim words of C2: valid iff `access_token` and
`realm_id` are present and either `expires_at` is absent or `now` is
strictly earlier than `expires_at` minus the 300000 ms margin. -/
def specIsValid (td : TokenData) (now : Int) : Bool :=
  td.access_token.isSome && td.realm_id.isSome &&
    (match td.expires_at with
     | none => true
     | some e => decide (now < e - 300000))

/-- A complete credential expiring exactly one margin from now: the boundary
instant where the code and the claim disagree. -/
def c2Credential : TokenData :=
  { access_token := some "a-token"
    refresh_token := some "r-token"
    realm_id := some "realm-2"
    expires_at := some 600000
    token_type := some "bearer"
    scope := some "accounting"
    last_updated := some "2024-01-01T00:00:00Z" }

/-- Claim C2 counterexample: at `now = expires_at - 300000` exactly, the
code (`Date.now() > expires_at - 300000` is false) still reports the
credential valid, while the claim (`now` strictly earlier than
`expires_at` minus the margin) says it must be invalid, so the claimed
equivalence fails at this input. -/
theorem claim_C2_counterexample :
    hasValidTokens c2Credential 300000 ≠ specIsValid c2Credential 300000 := by
  decide

/-- Modelled from the amended claim of C2: valid iff `access_token` and
`realm_id` are present as non-empty strings and either `expires_at` is
absent (or the falsy 0) or `now` is at or before `expires_at` minus the
300000 ms margin. -/
def specIsValidAmended (td : TokenData) (now : Int) : Bool :=
  truthyStr td.access_token && truthyStr td.realm_id &&
    (match td.expires_at with
     | none => true
     | some e => e == 0 || decide (now ≤ e - 300000))

/-- Claim C2 (amended): `hasValidTokens` returns true iff `access_token`
and `realm_id` are truthy AND (`expires_at` is absent or zero OR `now` is
at or before `expires_at` minus the 300000 ms safety margin) — the
boundary instant itself counts as still valid. -/
theorem claim_C2_amended (td : TokenData) (now : Int) :
    hasValidTokens td now = specIsValidAmended td now := by
  rcases td with ⟨a, rt, r, ea, tt, sc, lu⟩
  unfold hasValidTokens specIsValidAmended truthyInt
  cases ea with
  | none =>
    cases ha : truthyStr a <;> cases hr : truthyStr r <;> simp [ha, hr]
  | some e =>
    cases ha : truthyStr a <;> cases hr : truthyStr r <;> simp [ha, hr]
    by_cases he : e = 0
    · simp [he]
    · by_cases hgt : now > e - 300000
      all_goals simp [he, hgt]
      all_goals omega

/-! ### Claim C5 -/

/-- Claim C5: with the Credential Store empty at cold start, every
`getValidTokens` call throws the no-tokens error (classified
`ReauthenticationRequired` by the spec taxonomy), performs zero issuer
calls, and leaves the state unchanged — whatever the issuer would have
answered. -/
theorem claim_C5 (issuer : IssuerResult) (now : Int) (nowIso : String) :
    (getValidTokens emptyStoreState issuer now nowIso).result =
      .error .noTokensAvailable ∧
    (getValidTokens emptyStoreState issuer now nowIso).issuerCalls = 0 ∧
    (getValidTokens emptyStoreState issuer now nowIso).state = emptyStoreState ∧
    isReauthenticationRequired .noTokensAvailable = true := by
  exact ⟨rfl, rfl, rfl, rfl⟩

/-! ### Claim C9 -/

/-- Claim C9: the refresh merge `updateTokens` never changes `realm_id`,
`token_type`, or `scope`, even when the issuer response carries new
`token_type` or `scope` values (the `TokenResponse` argument has both
fields and `updateTokens` ignores them). -/
theorem claim_C9 (st : StoreState) (resp : TokenResponse) (now : Int) (nowIso : String) :
    (updateTokens st resp now nowIso).1.realm_id = st.tokenData.realm_id ∧
    (updateTokens st resp now nowIso).1.token_type = st.tokenData.token_type ∧
    (updateTokens st resp now nowIso).1.scope = st.tokenData.scope ∧
    (updateTokens st resp now nowIso).2.tokenData = (updateTokens st resp now nowIso).1 := by
  unfold updateTokens
  dsimp only
  split <;> exact ⟨rfl, rfl, rfl, rfl⟩

/-! ### Claim C4 -/

/-- Claim C4: saving a token response with truthy `access_token` under a
truthy realm id and then loading yields exactly the record that was saved
(both as the return value and as the installed in-memory record), and the
saved `expires_at` is the absolute epoch instant computed from the
save-time clock (`now + expires_in * 1000`, or absent when `expires_in`
is absent); `loadTokens` takes no clock at all, so nothing can be
recomputed at load time. -/
theorem claim_C4 (st : StoreState) (tokens : TokenResponse) (realmId : Option String)
    (now : Int) (nowIso : String)
    (ha : truthyStr tokens.access_token = true)
    (hr : truthyStr realmId = true) :
    (loadTokens (saveTokens st tokens realmId now nowIso).2).1 =
      some (saveTokens st tokens realmId now nowIso).1 ∧
    (loadTokens (saveTokens st tokens realmId now nowIso).2).2.tokenData =
      (saveTokens st tokens realmId now nowIso).1 ∧
    (∀ e, tokens.expires_in = some e → e ≠ 0 →
      (saveTokens st tokens realmId now nowIso).1.expires_at = some (now + e * 1000)) ∧
    (tokens.expires_in = none →
      (saveTokens st tokens realmId now nowIso).1.expires_at = none) := by
  unfold saveTokens loadTokens
  dsimp only
  rw [ha, hr]
  refine ⟨rfl, rfl, ?_, ?_⟩
  · intro e he hne
    rw [he]
    simp [truthyInt, hne]
  · intro he
    rw [he]
    simp [truthyInt]

/-- A full issuer token response used to exercise the save/load round
trip. -/
def c4Tokens : TokenResponse :=
  { access_token := some "at-4"
    refresh_token := some "rt-4"
    expires_in := some 3600
    token_type := some "bearer"
    scope := some "accounting"}

/-- Witness for claim C4 at a concrete response, realm and clock. -/
theorem claim_C4_witness :
    truthyStr c4Tokens.access_token = true ∧
    (loadTokens (saveTokens emptyStoreState c4Tokens (some "realm-4") 1000 "t4").2).1 =
      some (saveTokens emptyStoreState c4Tokens (some "realm-4") 1000 "t4").1 ∧
    (saveTokens emptyStoreState c4Tokens (some "realm-4") 1000 "t4").1.expires_at =
      some (1000 + 3600 * 1000) := by
  have h := claim_C4 emptyStoreState c4Tokens (some "realm-4") 1000 "t4"
    (by decide) (by decide)
  exact ⟨by decide, h.1, h.2.2.1 3600 rfl (by decide)⟩

/-! ### Claim C10 -/

/-- Claim C10: `saveTokens` stores exactly the `refresh_token` field of the
response, so a response with no `refresh_token` erases any previously
stored one, while `updateTokens` on the very same response keeps the old
stored `refresh_token`. -/
theorem claim_C10 (st : StoreState) (tokens : TokenResponse) (realmId : Option String)
    (now : Int) (nowIso : String) :
    (saveTokens st tokens realmId now nowIso).1.refresh_token = tokens.refresh_token ∧
    (tokens.refresh_token = none →
      (saveTokens st tokens realmId now nowIso).1.refresh_token = none ∧
      (updateTokens st tokens now nowIso).1.refresh_token =
        st.tokenData.refresh_token) := by
  refine ⟨rfl, fun hn => ⟨?_, ?_⟩⟩
  · unfold saveTokens
    dsimp only
    exact hn
  · unfold updateTokens
    rw [hn]
    rfl

/-- A store already holding a refresh token, about to receive a response
that lacks one. -/
def c10Credential : TokenData :=
  { access_token := some "at-10"
    refresh_token := some "old-rt-10"
    realm_id := some "realm-10"
    expires_at := some 900000
    token_type := some "bearer"
    scope := none
    last_updated := some "2024-01-01T00:00:00Z" }

/-- The refresh-token-less response for the C10 witness. -/
def c10Tokens : TokenResponse :=
  { access_token := some "new-at-10"
    refresh_token := none
    expires_in := some 3600
    token_type := some "bearer"
    scope := none }

/-- Witness for claim C10: the save erases the stored refresh token while
the update preserves it, at a concrete state and response. -/
theorem claim_C10_witness :
    (saveTokens ⟨c10Credential, some c10Credential⟩ c10Tokens (some "realm-10") 0 "t").1.refresh_token = none ∧
    (updateTokens ⟨c10Credential, some c10Credential⟩ c10Tokens 0 "t").1.refresh_token =
      some "old-rt-10" := by
  have h := claim_C10 ⟨c10Credential, some c10Credential⟩ c10Tokens (some "realm-10") 0 "t"
  have h2 := h.2 rfl
  exact ⟨h2.1, by rw [h2.2]; rfl⟩

/-! ### Claim C6 -/

/-- Claim C6: for a stale credential with a refresh token, a recoverable
issuer failure (transport failure or any HTTP status other than the
terminal 400 and 401) makes `getValidTokens` fail with an error the spec
classifies `TemporarilyUnavailable`, after exactly one issuer call, and
leaves the store state (memory and file) exactly as it was. -/
theorem claim_C6 (st : StoreState) (issuer : IssuerResult) (now : Int) (nowIso : String)
    (hrt : truthyStr st.tokenData.refresh_token = true)
    (hexp : isTokenExpired st.tokenData now = true)
    (hrec : recoverableIssuer issuer = true) :
    (getValidTokens st issuer now nowIso).state = st ∧
    (getValidTokens st issuer now nowIso).issuerCalls = 1 ∧
    ∃ e, (getValidTokens st issuer now nowIso).result = .error e ∧
      isTemporarilyUnavailable e = true := by
  have hv := hasValidTokens_false_of_expired st.tokenData now hexp
  unfold getValidTokens getTokens
  rw [hv, hexp, hrt]
  unfold refreshAccessToken
  rw [hrt]
  cases issuer with
  | success resp => simp [recoverableIssuer] at hrec
  | httpError status =>
    unfold recoverableIssuer at hrec
    simp only [Bool.and_eq_true, Bool.not_eq_true'] at hrec
    obtain ⟨h400, h401⟩ := hrec
    simp only [Bool.not_true, if_false, h400, h401]
    exact ⟨rfl, rfl, .refreshErr (.refreshFailed (.httpStatus status)), rfl, rfl⟩
  | networkError =>
    exact ⟨rfl, rfl, .refreshErr (.refreshFailed .network), rfl, rfl⟩

/-- A stale credential with a refresh token for the C6 witness. -/
def c6Credential : TokenData :=
  { access_token := some "at-6"
    refresh_token := some "rt-6"
    realm_id := some "realm-6"
    expires_at := some 500000
    token_type := some "bearer"
    scope := none
    last_updated := some "2024-01-01T00:00:00Z" }

/-- Witness for claim C6 at a concrete stale state with a network
timeout. -/
theorem claim_C6_witness :
    (getValidTokens ⟨c6Credential, some c6Credential⟩ .networkError 900000 "t6").state =
      ⟨c6Credential, some c6Credential⟩ ∧
    (getValidTokens ⟨c6Credential, some c6Credential⟩ .networkError 900000 "t6").issuerCalls = 1 ∧
    ∃ e, (getValidTokens ⟨c6Credential, some c6Credential⟩ .networkError 900000 "t6").result =
        .error e ∧ isTemporarilyUnavailable e = true :=
  claim_C6 ⟨c6Credential, some c6Credential⟩ .networkError 900000 "t6"
    (by decide) (by decide) (by decide)

/-! ### Claim C1 -/

/-- A complete stale credential with a refresh token, as held by the store
when the issuer terminally rejects the refresh. -/
def c1Credential : TokenData :=
  { access_token := some "stale-at-1"
    refresh_token := some "stale-rt-1"
    realm_id := some "realm-1"
    expires_at := some 1000000
    token_type := some "bearer"
    scope := some "accounting"
    last_updated := some "2024-01-01T00:00:00Z" }

/-- Claim C1 counterexample: with a complete stale credential holding a
refresh token and the issuer answering HTTP 400, `getValidTokens` does
throw the terminal invalid-refresh-token error, but the store is NOT
cleared — the diagnostic snapshot still reports tokens present
(`hasTokens = true`), contradicting the claim that the Credential Store is
cleared so that the status reports no tokens available. -/
theorem claim_C1_counterexample :
    (getValidTokens ⟨c1Credential, some c1Credential⟩ (.httpError 400) 2000000
      "t1").result = .error (.refreshErr .invalidRefreshToken) ∧
    ¬ ((getTokenInfo (getValidTokens ⟨c1Credential, some c1Credential⟩ (.httpError 400)
        2000000 "t1").state.tokenData 2000000).hasTokens = false) :=
  ⟨rfl, by decide⟩

/-- Claim C1 (amended): on a terminal HTTP 400 rejection of the refresh,
the call fails with the invalid-refresh-token error (classified
`ReauthenticationRequired`), but the Credential Store is left completely
unchanged — the diagnostics still report tokens present — and every
subsequent call at the same or a later instant fails the same way (each
one re-attempting the refresh exchange), as long as no new token exchange
replaces the stored credential. -/
theorem claim_C1_amended (st : StoreState) (now now' : Int) (iso iso' : String)
    (ha : truthyStr st.tokenData.access_token = true)
    (hrt : truthyStr st.tokenData.refresh_token = true)
    (hexp : isTokenExpired st.tokenData now = true)
    (hle : now ≤ now') :
    (getValidTokens st (.httpError 400) now iso).result =
      .error (.refreshErr .invalidRefreshToken) ∧
    isReauthenticationRequired (.refreshErr .invalidRefreshToken) = true ∧
    (getValidTokens st (.httpError 400) now iso).state = st ∧
    (getTokenInfo (getValidTokens st (.httpError 400) now iso).state.tokenData
      now).hasTokens = true ∧
    (getValidTokens st (.httpError 400) now' iso').result =
      .error (.refreshErr .invalidRefreshToken) ∧
    (getValidTokens st (.httpError 400) now' iso').issuerCalls = 1 := by
  have hexp' := isTokenExpired_mono st.tokenData hexp hle
  have key : ∀ n s, isTokenExpired st.tokenData n = true →
      getValidTokens st (.httpError 400) n s =
        { result := .error (.refreshErr .invalidRefreshToken), state := st
          issuerCalls := 1 } := by
    intro n s hn
    have hv := hasValidTokens_false_of_expired st.tokenData n hn
    unfold getValidTokens getTokens
    rw [hv, hn, hrt]
    unfold refreshAccessToken
    rw [hrt]
    rfl
  rw [key now iso hexp, key now' iso' hexp']
  exact ⟨rfl, rfl, rfl, by simpa [getTokenInfo] using ha, rfl, rfl⟩

/-- Witness for the amended claim C1 at a concrete stale credential and two
successive clock instants. -/
theorem claim_C1_amended_witness :
    (getValidTokens ⟨c1Credential, some c1Credential⟩ (.httpError 400) 2000000
      "ta").result = .error (.refreshErr .invalidRefreshToken) ∧
    (getValidTokens ⟨c1Credential, some c1Credential⟩ (.httpError 400) 2000000
      "ta").state = ⟨c1Credential, some c1Credential⟩ ∧
    (getValidTokens ⟨c1Credential, some c1Credential⟩ (.httpError 400) 3000000
      "tb").result = .error (.refreshErr .invalidRefreshToken) := by
  have h := claim_C1_amended ⟨c1Credential, some c1Credential⟩ 2000000 3000000 "ta" "tb"
    (by decide) (by decide) (by decide) (by decide)
  exact ⟨h.1, h.2.2.1, h.2.2.2.2.1⟩

/-! ### Claim C3 -/

/-- Modelled from the claim words of C3: a refresh that always replaces
`expires_at` would make it exactly the instant recomputed from the
response lifetime, absent when the response has no lifetime. -/
def specRefreshExpiresAt (resp : TokenResponse) (now : Int) : Option Int :=
  resp.expires_in.map (fun e => now + e * 1000)

/-- A stored credential with a known expiry, used to exhibit the kept (not
replaced) expiry. -/
def c3Credential : TokenData :=
  { access_token := some "old-at-3"
    refresh_token := some "old-rt-3"
    realm_id := some "realm-3"
    expires_at := some 777000
    token_type := some "bearer"
    scope := none
    last_updated := some "2024-01-01T00:00:00Z" }

/-- A refresh response that omits both `refresh_token` and `expires_in`. -/
def c3Resp : TokenResponse :=
  { access_token := some "new-at-3"
    refresh_token := none
    expires_in := none
    token_type := none
    scope := none }

/-- Claim C3 counterexample: when the refresh response omits `expires_in`,
`updateTokens` keeps the previous `expires_at` (some 777000) instead of
replacing it with a value computed from the response (which would be
absent), so the claim that a successful refresh always replaces
`expires_at` fails at this input. -/
theorem claim_C3_counterexample :
    (updateTokens ⟨c3Credential, some c3Credential⟩ c3Resp 5000 "t3").1.expires_at ≠
      specRefreshExpiresAt c3Resp 5000 := by
  decide

/-- Claim C3 (amended): a successful refresh merge always replaces
`access_token`; it replaces `expires_at` with the absolute instant
computed from the response lifetime whenever the response carries a
non-zero `expires_in`, and keeps the previous `expires_at` when the
lifetime is absent or zero; it replaces `refresh_token` only when the
response carries a truthy one, and two refreshes in a row whose responses
omit the refresh token leave the originally stored refresh token intact
both times. -/
theorem claim_C3_amended (st : StoreState) (r1 r2 : TokenResponse)
    (n1 n2 : Int) (s1 s2 : String) :
    (updateTokens st r1 n1 s1).1.access_token = r1.access_token ∧
    (∀ e, r1.expires_in = some e → e ≠ 0 →
      (updateTokens st r1 n1 s1).1.expires_at = some (n1 + e * 1000)) ∧
    (truthyInt r1.expires_in = false →
      (updateTokens st r1 n1 s1).1.expires_at = st.tokenData.expires_at) ∧
    (truthyStr r1.refresh_token = true →
      (updateTokens st r1 n1 s1).1.refresh_token = r1.refresh_token) ∧
    (truthyStr r1.refresh_token = false → truthyStr r2.refresh_token = false →
      (updateTokens st r1 n1 s1).1.refresh_token = st.tokenData.refresh_token ∧
      (updateTokens (updateTokens st r1 n1 s1).2 r2 n2 s2).1.refresh_token =
        st.tokenData.refresh_token) := by
  refine ⟨?_, ?_, ?_, ?_, ?_⟩
  · unfold updateTokens
    dsimp only
    split <;> rfl
  · intro e he hne
    unfold updateTokens
    dsimp only
    rw [he]
    simp [truthyInt, hne]
    split <;> rfl
  · intro hf
    unfold updateTokens
    dsimp only
    rw [hf]
    split <;> rfl
  · intro ht
    unfold updateTokens
    dsimp only
    rw [ht]
    rfl
  · intro h1 h2
    unfold updateTokens
    dsimp only
    rw [h1, h2]
    exact ⟨rfl, rfl⟩

/-- A second refresh response omitting the refresh token but carrying a
lifetime, for the C3 witness. -/
def c3Resp2 : TokenResponse :=
  { access_token := some "new-at-3b"
    refresh_token := none
    expires_in := some 3600
    token_type := none
    scope := none }

/-- Witness for the amended claim C3: two refreshes whose responses omit
the refresh token keep the originally stored one, and a response with a
lifetime yields the recomputed absolute expiry. -/
theorem claim_C3_amended_witness :
    (updateTokens (updateTokens ⟨c3Credential, some c3Credential⟩ c3Resp 5000 "t3a").2
      c3Resp2 6000 "t3b").1.refresh_token =
      (⟨c3Credential, some c3Credential⟩ : StoreState).tokenData.refresh_token ∧
    (updateTokens ⟨c3Credential, some c3Credential⟩ c3Resp2 6000 "t3c").1.expires_at =
      some (6000 + 3600 * 1000) := by
  have h := claim_C3_amended ⟨c3Credential, some c3Credential⟩ c3Resp c3Resp2
    5000 6000 "t3a" "t3b"
  have h2 := claim_C3_amended ⟨c3Credential, some c3Credential⟩ c3Resp2 c3Resp
    6000 5000 "t3c" "t3x"
  exact ⟨(h.2.2.2.2 (by decide) (by decide)).2, h2.2.1 3600 rfl (by decide)⟩

/-! ### Claim C8 -/

/-- The timer table at process start: no interval active, first id 1 (Node
interval ids are truthy). -/
def initialTimerState : TimerState :=
  { nextId := 1, active := [] }

/-- Claim C8 counterexample: two bare calls to `scheduleTokenRefresh`,
starting from a state with no active driver, leave two concurrent periodic
drivers active — the function never cancels the existing timer, so the
claim that calling it twice never results in two concurrent drivers fails
at this input. -/
theorem claim_C8_counterexample :
    ¬ ((scheduleTokenRefresh (scheduleTokenRefresh initialTimerState 30).2
      30).2.active.length ≤ 1) := by
  decide

/-- Claim C8 (amended): `scheduleTokenRefresh` itself stacks timers; the
replace-rather-than-stack discipline lives in the `/callback` route, which
stops the tracked interval before starting a new one. Whenever every
active driver is the one tracked in `refreshIntervalId` (or none is
active), the route's scheduling step leaves exactly one active driver: the
newly created one. -/
theorem claim_C8_amended (rid : Option Nat) (ts : TimerState)
    (hact : ts.active = [] ∨ ∃ id, rid = some id ∧ id ≠ 0 ∧ ts.active = [id]) :
    (callbackScheduleRefresh rid ts).2.active = [(callbackScheduleRefresh rid ts).1] := by
  rcases hact with h | ⟨id, hrid, hid, h⟩
  · unfold callbackScheduleRefresh stopScheduledRefresh scheduleTokenRefresh
    dsimp only
    split <;> simp [h]
  · subst hrid
    unfold callbackScheduleRefresh stopScheduledRefresh scheduleTokenRefresh
    rw [h]
    have htr : truthyNat (some id) = true := by
      unfold truthyNat
      simpa using hid
    rw [htr]
    simp [List.erase_cons_head]

/-- Witness for the amended claim C8: with the tracked driver 5 active, the
callback step yields exactly the one new driver. -/
theorem claim_C8_amended_witness :
    (callbackScheduleRefresh (some 5) { nextId := 7, active := [5] }).2.active =
      [(callbackScheduleRefresh (some 5) { nextId := 7, active := [5] }).1] :=
  claim_C8_amended (some 5) { nextId := 7, active := [5] }
    (Or.inr ⟨5, rfl, by decide, rfl⟩)

end ImBackend
